import Mathlib

/-!
Shallow embedding of the real-time chat session core of the
`multimodal-ai-frontend` repository (file `src/pages/ChatPage.tsx`).

The embedding models the component state of `ChatPage` (message list,
streaming/thinking flags, the `isStreamingRef` mirror, the pending
route-model ref, the resolved conversation id ref, and the socket
reference) together with the event handlers installed on the streaming
socket (`socket.onmessage`, `socket.onclose`), the send/stop entry
points (`sendMessage`, `handleStop`), the reset effect keyed on
`resetKey`, and the WebSocket effect cleanup.  Time (`Date.now()`) is
threaded as an explicit natural-number argument; observable external
actions (frame transmission, URL replacement, profile refresh, socket
open/close) are returned as an explicit effect list.
-/

namespace ChatCore

/-- Message role as stored by the component; the source uses the string
values "user" | "ai" | "system". -/
inductive Role where
  | user
  | ai
  | system
deriving DecidableEq, Repr

/-- Attachment metadata kept on a user message (source type `Attachment`). -/
structure Attachment where
  name : String
  mimeKind : String
  size : Nat
deriving DecidableEq, Repr

/-- A chat message as held in the component's `messages` state
(source type `Message`; the optional `timestamp` field is never read by
the core logic and is omitted). -/
structure Message where
  role : Role
  content : String
  model : Option String := none
  id : String
  attachments : List Attachment := []
deriving DecidableEq, Repr

/-- A local file staged for upload (the fields of a DOM `File` that the
source reads: `name`, `type`, `size`). -/
structure FileData where
  name : String
  mimeKind : String
  size : Nat
deriving DecidableEq, Repr

/-- Per-file result of the upload endpoint (source type
`UploadedFileMeta`); a file with an empty `id` models a falsy `f.id`
(per-file failure marker). -/
structure UploadedFileMeta where
  id : String
  name : String
  mimeKind : String
  size : Nat
  mime_type : String
deriving DecidableEq, Repr

/-- The system-frame event tag (source union
`"chat_id" | "route" | "cost" | "warning"`). -/
inductive SysEvent where
  | chat_id
  | route
  | cost
  | warning
deriving DecidableEq, Repr

/-- An inbound protocol frame after JSON parsing (source type
`WebSocketPayload`).  Unparseable frames are caught and dropped by the
source and produce no event at all, so they need no constructor. -/
inductive Frame where
  | content (delta : String)
  | system (event : SysEvent) (payload : String)
  | error (message : String)
deriving DecidableEq, Repr

/-- The outbound user-turn frame
`{type: "user_message", content, attachments}`. -/
structure OutPayload where
  content : String
  attachments : List UploadedFileMeta
deriving DecidableEq, Repr

/-- Observable external actions performed by the handlers. -/
inductive Effect where
  | replaceUrl (url : String)
  | consoleWarn (text : String)
  | refreshProfile
  | wsSend (payload : OutPayload)
  | closeSocket
  | openSocket (url : String)
deriving DecidableEq, Repr

/-- `WebSocket.CONNECTING` -/
def wsCONNECTING : Nat := 0
/-- `WebSocket.OPEN` -/
def wsOPEN : Nat := 1
/-- `WebSocket.CLOSING` -/
def wsCLOSING : Nat := 2
/-- `WebSocket.CLOSED` -/
def wsCLOSED : Nat := 3

/-- The component state of `ChatPage` that the core logic reads and
writes.  `ws` models `ws.current`: `none` is a null reference, `some r`
is a reference to a socket whose `readyState` is `r`.  `activeChatId`
is the route parameter (`routeChatId || null`), constant for the
lifetime of a mount.  `isStreamingRef` mirrors `isStreamingRef.current`;
`internalChatId` mirrors `internalChatIdRef.current`;
`currentStreamModel` mirrors `currentStreamModel.current`. -/
structure ChatState where
  messages : List Message
  input : String
  selectedFiles : List FileData
  isStreaming : Bool
  isThinking : Bool
  thinkingMessage : String
  isStreamingRef : Bool
  currentStreamModel : Option String
  internalChatId : Option String
  activeChatId : Option String
  ws : Option Nat
deriving DecidableEq, Repr

/-- The id-generation sites of the component: each freshly created
message id is a site tag followed by the decimal rendering of
`Date.now()`. -/
inductive IdKind where
  | user
  | ai
  | sys
  | warn
  | err
deriving DecidableEq, Repr

/-- The literal tag each creation site prepends to `Date.now()`. -/
def kindTag : IdKind → String
  | .user => "user-"
  | .ai => "ai-"
  | .sys => "sys-"
  | .warn => "warn-"
  | .err => "err-"

/-- Template-literal id such as `ai-${Date.now()}`. -/
def mkId (k : IdKind) (now : Nat) : String :=
  kindTag k ++ Nat.repr now

/-- The guard of the append branch of the content handler: the store is
non-empty, its last message has role "ai", and `isStreamingRef.current`
was already true when the delta arrived. -/
def appendCond (s : ChatState) : Bool :=
  match s.messages.getLast? with
  | some lastMsg => lastMsg.role == Role.ai && s.isStreamingRef
  | none => false

/-- `socket.onmessage` after the `isCleanup` early return and the JSON
parse: one inbound frame folded into the component state, in source
order.  For a content frame: `setIsThinking(false)`,
`setIsStreaming(true)`, `wasStreaming` captured from the ref before the
ref is set to true, then the `setMessages` reconciliation. -/
def handleFrame (s : ChatState) (f : Frame) (now : Nat) :
    ChatState × List Effect :=
  match f with
  | .system .chat_id payload =>
      ({ s with internalChatId := some payload },
       if s.activeChatId = none then
         [Effect.replaceUrl ("/dashboard/chat/" ++ payload)]
       else [])
  | .system .warning payload =>
      ({ s with
          messages := s.messages ++
            [{ role := Role.system,
               content := "⚠️ Warning: " ++ payload,
               id := mkId .warn now }] },
       [Effect.consoleWarn payload])
  | .system .route payload =>
      ({ s with currentStreamModel := some payload }, [])
  | .system .cost _ =>
      ({ s with
          isStreaming := false,
          isStreamingRef := false,
          currentStreamModel := none },
       [Effect.refreshProfile])
  | .error msg =>
      ({ s with
          messages := s.messages ++
            [{ role := Role.system,
               content := "⚠️ Error: " ++ msg,
               id := mkId .err now }],
          isStreaming := false,
          isThinking := false,
          isStreamingRef := false },
       [])
  | .content delta =>
      let wasStreaming := s.isStreamingRef
      let base := { s with
        isThinking := false,
        isStreaming := true,
        isStreamingRef := true }
      match s.messages.getLast? with
      | some lastMsg =>
          if lastMsg.role == Role.ai && wasStreaming then
            ({ base with
                messages := s.messages.dropLast ++
                  [{ lastMsg with content := lastMsg.content ++ delta }] },
             [])
          else
            ({ base with
                messages := s.messages ++
                  [{ role := Role.ai,
                     content := delta,
                     model := s.currentStreamModel,
                     id := mkId .ai now }] },
             [])
      | none =>
          ({ base with
              messages := s.messages ++
                [{ role := Role.ai,
                   content := delta,
                   model := s.currentStreamModel,
                   id := mkId .ai now }] },
           [])

/-- `socket.onclose` after the `isCleanup` early return: clear the
in-flight flags; on close code 1008 append the disconnect notice and
return, otherwise request that a reconnect be scheduled (the boolean
result; the timer itself is part of the connection-loop model below).
The close event also means the referenced socket has reached the
CLOSED ready state. -/
def handleClose (s : ChatState) (code : Nat) (now : Nat) :
    ChatState × Bool :=
  let s1 := { s with
    isStreaming := false,
    isThinking := false,
    isStreamingRef := false,
    ws := s.ws.map (fun _ => wsCLOSED) }
  if code = 1008 then
    ({ s1 with
        messages := s1.messages ++
          [{ role := Role.system,
             content :=
               "⚠️ Disconnected: Insufficient credits or authentication issue.",
             id := mkId .sys now }] },
     false)
  else
    (s1, true)

/-- JavaScript `a || b` on nullable strings: null and the empty string
are falsy. -/
def jsOrStr (a : Option String) (b : String) : String :=
  match a with
  | some x => if x = "" then b else x
  | none => b

/-- `const targetChatId = internalChatIdRef.current || activeChatId || ""`. -/
def targetChatId (s : ChatState) : String :=
  jsOrStr s.internalChatId (jsOrStr s.activeChatId "")

/-- The connection URL built by `connect()`; the chat_id query parameter
is present exactly when the resolved target id is non-empty. -/
def wsUrl (proto host token model : String) (s : ChatState) : String :=
  proto ++ "://" ++ host ++ "/api/v1/chat/ws?token=" ++ token ++
    "&model=" ++ model ++
    (if targetChatId s = "" then "" else "&chat_id=" ++ targetChatId s)

/-- JavaScript `String.prototype.trim`: strip leading and trailing
whitespace (defined over the character list so that it evaluates by
kernel reduction). -/
def jsTrim (s : String) : String :=
  ⟨((s.data.dropWhile Char.isWhitespace).reverse.dropWhile
      Char.isWhitespace).reverse⟩

/-- `sendMessage`.  The guard returns without side effects when the
trimmed input is empty with no staged files, or `ws.current` is null,
or the session is streaming or thinking.  On accept: optimistic user
append, thinking set, then (when files are staged) the upload step,
whose outcome is passed in as `upload` (`Except.error` models the
`catch` branch: non-ok response or thrown error).  On upload failure a
system notice is appended, thinking is cleared, and the function
returns before any frame is sent.  Otherwise exactly one user-turn
frame is transmitted and input/files are cleared.  (The `console.log`
and the deferred scroll call are pure UI and not modelled.) -/
def sendMessage (s : ChatState)
    (upload : Except Unit (List UploadedFileMeta)) (now : Nat) :
    ChatState × List Effect :=
  if (jsTrim s.input = "" ∧ s.selectedFiles = []) ∨ s.ws = none ∨
      s.isStreaming ∨ s.isThinking then
    (s, [])
  else
    let attachmentMeta : List Attachment :=
      s.selectedFiles.map (fun f => ⟨f.name, f.mimeKind, f.size⟩)
    let s1 : ChatState := { s with
      messages := s.messages ++
        [{ role := Role.user,
           content := s.input,
           id := mkId .user now,
           attachments := attachmentMeta }],
      thinkingMessage :=
        if s.selectedFiles ≠ [] then "Uploading and analyzing..."
        else "Thinking...",
      isThinking := true }
    if s.selectedFiles ≠ [] then
      (match upload with
      | .error _ =>
          ({ s1 with
              messages := s1.messages ++
                [{ role := Role.system,
                   content := "⚠️ Failed to upload attachments. Please try again.",
                   id := mkId .sys now }],
              isThinking := false },
           [])
      | .ok files =>
          let processed := files.filter (fun f => f.id ≠ "")
          ({ s1 with input := "", selectedFiles := [] },
           [Effect.wsSend ⟨s.input, processed⟩])
      : ChatState × List Effect)
    else
      ({ s1 with input := "", selectedFiles := [] },
       [Effect.wsSend ⟨s.input, []⟩])

/-- `handleStop`: only acts when `ws.current` is non-null and the
session is streaming or thinking; clears both flags and the ref and
calls `close()` on the referenced socket (moving it towards CLOSING).
It does not set the effect-local `isCleanup` flag. -/
def handleStop (s : ChatState) : ChatState × List Effect :=
  if s.ws ≠ none ∧ (s.isStreaming ∨ s.isThinking) then
    ({ s with
        isStreaming := false,
        isThinking := false,
        isStreamingRef := false,
        ws := s.ws.map (fun _ => wsCLOSING) },
     [Effect.closeSocket])
  else
    (s, [])

/-- The reset effect keyed on `resetKey`: clears the message list and
all in-flight state, forgets the resolved conversation id, closes the
referenced socket (if any) and nulls the reference.  It does not touch
the WebSocket effect's `isCleanup` flag or its reconnect timer. -/
def resetEffect (s : ChatState) : ChatState × List Effect :=
  ({ s with
      messages := [],
      isStreaming := false,
      isThinking := false,
      isStreamingRef := false,
      currentStreamModel := none,
      internalChatId := none,
      ws := none },
   if s.ws ≠ none then [Effect.closeSocket] else [])

/-- The state of one run of the WebSocket effect together with the
component state it closes over.  `timer` is the reconnect timer
currently referenced by the effect-local `reconnectTimer` variable
(`some d` = a callback scheduled with delay `d` ms is outstanding);
`untracked` counts scheduled callbacks that are still outstanding but
no longer referenced by the variable (a `setTimeout` assignment
overwrites the variable without clearing the previous timer);
`live` records whether a socket created by this effect exists whose
close event has not yet fired (such a socket can still deliver
`onmessage`/`onclose`). -/
structure LoopState where
  comp : ChatState
  proto : String
  host : String
  token : String
  model : String
  isCleanup : Bool
  timer : Option Nat
  untracked : Nat
  live : Bool
deriving DecidableEq, Repr

/-- The discrete events of the single-threaded event loop that can act
on one WebSocket-effect instance.  `msg` and `close` fire only while a
socket of this instance is live; `timerFire`/`untrackedFire` fire only
while the corresponding callback is outstanding (the step function is
the identity otherwise).  `send` models the user editing the bound
input/file state and invoking `sendMessage`. -/
inductive Ev where
  | msg (f : Frame) (now : Nat)
  | close (code : Nat) (now : Nat)
  | timerFire
  | untrackedFire
  | reset
  | stop
  | cleanup
  | send (text : String) (files : List FileData)
      (upload : Except Unit (List UploadedFileMeta)) (now : Nat)

/-- `connect()`: resolves the target chat id from the current refs,
creates a socket and stores it in `ws.current`. -/
def connectStep (ls : LoopState) : LoopState × List Effect :=
  ({ ls with
      comp := { ls.comp with ws := some wsCONNECTING },
      live := true },
   [Effect.openSocket (wsUrl ls.proto ls.host ls.token ls.model ls.comp)])

/-- One event of the loop.  Transcribes, per event: the `isCleanup`
early returns of `onmessage`/`onclose`; the reconnect scheduling
`reconnectTimer = setTimeout(() => { if (!isCleanup) connect(); }, 3000)`
(the old tracked timer, if still outstanding, becomes untracked); the
timer callbacks with their `!isCleanup` guard; the reset effect and
`handleStop` (neither touches `isCleanup` or the timer); the effect
cleanup `isCleanup = true; clearTimeout(reconnectTimer);
ws.current?.close()`. -/
def step (ls : LoopState) (e : Ev) : LoopState × List Effect :=
  match e with
  | .msg f now =>
      if ls.live then
        if ls.isCleanup then (ls, [])
        else
          let r := handleFrame ls.comp f now
          ({ ls with comp := r.1 }, r.2)
      else (ls, [])
  | .close code now =>
      if ls.live then
        let ls1 := { ls with live := false }
        if ls1.isCleanup then (ls1, [])
        else
          let r := handleClose ls1.comp code now
          if r.2 then
            ({ ls1 with
                comp := r.1,
                untracked :=
                  ls1.untracked + (if ls1.timer.isSome then 1 else 0),
                timer := some 3000 },
             [])
          else
            ({ ls1 with comp := r.1 }, [])
      else (ls, [])
  | .timerFire =>
      match ls.timer with
      | some _ =>
          let ls1 := { ls with timer := none }
          if ls1.isCleanup then (ls1, []) else connectStep ls1
      | none => (ls, [])
  | .untrackedFire =>
      if 0 < ls.untracked then
        let ls1 := { ls with untracked := ls.untracked - 1 }
        if ls1.isCleanup then (ls1, []) else connectStep ls1
      else (ls, [])
  | .reset =>
      let r := resetEffect ls.comp
      ({ ls with comp := r.1 }, r.2)
  | .stop =>
      let r := handleStop ls.comp
      ({ ls with comp := r.1 }, r.2)
  | .cleanup =>
      ({ ls with isCleanup := true, timer := none },
       if ls.comp.ws ≠ none then [Effect.closeSocket] else [])
  | .send text files upload now =>
      let r := sendMessage
        { ls.comp with input := text, selectedFiles := files } upload now
      ({ ls with comp := r.1 }, r.2)

/-- Run a sequence of events. -/
def run (ls : LoopState) : List Ev → LoopState
  | [] => ls
  | e :: es => run (step ls e).1 es

/-- Fresh component state on mount (before the WebSocket effect runs):
`internalChatIdRef` is seeded with the route id. -/
def initComp (routeChatId : Option String) : ChatState :=
  { messages := []
    input := ""
    selectedFiles := []
    isStreaming := false
    isThinking := false
    thinkingMessage := ""
    isStreamingRef := false
    currentStreamModel := none
    internalChatId := routeChatId
    activeChatId := routeChatId
    ws := none }

/-- State right after a fresh run of the WebSocket effect, whose body
ends by calling `connect()`. -/
def initLoop (proto host token model : String)
    (routeChatId : Option String) : LoopState :=
  (connectStep
    { comp := initComp routeChatId
      proto := proto
      host := host
      token := token
      model := model
      isCleanup := false
      timer := none
      untracked := 0
      live := false }).1

/-- Timer bookkeeping invariant of one effect instance: no scheduled
callback ever escapes the `reconnectTimer` variable, and a tracked
pending timer implies the socket that scheduled it has already fired
its close event. -/
def TimerInv (ls : LoopState) : Prop :=
  ls.untracked = 0 ∧ (ls.timer.isSome = true → ls.live = false)

/-- Number of outstanding reconnect callbacks. -/
def outstandingTimers (ls : LoopState) : Nat :=
  ls.untracked + (if ls.timer.isSome then 1 else 0)

/-- Numeric value of a decimal digit character. -/
def dVal (c : Char) : Nat := c.toNat - '0'.toNat

/-- Value of a most-significant-first decimal digit string. -/
def listVal (l : List Char) : Nat := l.foldl (fun a c => a * 10 + dVal c) 0

theorem dVal_digitChar : ∀ m : Nat, m < 10 → dVal (Nat.digitChar m) = m := by decide

theorem toDigitsCore_append (b : Nat) :
    ∀ (f n : Nat) (acc : List Char),
      Nat.toDigitsCore b f n acc = Nat.toDigitsCore b f n [] ++ acc := by
  intro f
  induction f with
  | zero => intro n acc; simp [Nat.toDigitsCore]
  | succ f ih =>
    intro n acc
    simp only [Nat.toDigitsCore]
    by_cases h : n / b = 0
    · simp [h]
    · simp only [h, if_false]
      rw [ih (n / b) (Nat.digitChar (n % b) :: acc),
          ih (n / b) [Nat.digitChar (n % b)]]
      simp

theorem listVal_append_singleton (l : List Char) (c : Char) :
    listVal (l ++ [c]) = listVal l * 10 + dVal c := by
  simp [listVal, List.foldl_append]

theorem listVal_toDigitsCore :
    ∀ (f n : Nat), n < f → listVal (Nat.toDigitsCore 10 f n []) = n := by
  intro f
  induction f with
  | zero => intro n h; exact absurd h (Nat.not_lt_zero n)
  | succ f ih =>
    intro n h
    simp only [Nat.toDigitsCore]
    by_cases h0 : n / 10 = 0
    · have hn : n < 10 := by omega
      simp only [h0, if_true]
      have : listVal [Nat.digitChar (n % 10)] = n % 10 := by
        simp [listVal, dVal_digitChar (n % 10) (Nat.mod_lt _ (by norm_num))]
      rw [this]
      omega
    · simp only [h0, if_false]
      rw [toDigitsCore_append 10 f (n / 10) [Nat.digitChar (n % 10)],
          listVal_append_singleton]
      have hlt : n / 10 < f := by
        have := Nat.div_lt_self (by omega : 0 < n) (by norm_num : 1 < 10)
        omega
      rw [ih (n / 10) hlt, dVal_digitChar (n % 10) (Nat.mod_lt _ (by norm_num))]
      omega

theorem natRepr_injective : Function.Injective Nat.repr := by
  intro n m h
  have hd : Nat.toDigitsCore 10 (n + 1) n [] = Nat.toDigitsCore 10 (m + 1) m [] := by
    have := congrArg String.data h
    simpa [Nat.repr, Nat.toDigits, List.asString] using this
  have hn := listVal_toDigitsCore (n + 1) n (Nat.lt_succ_self n)
  have hm := listVal_toDigitsCore (m + 1) m (Nat.lt_succ_self m)
  rw [← hn, ← hm, hd]

/-- Two template-literal ids agree only when both the creation site and
the rendered timestamp agree. -/
theorem mkId_inj : ∀ (k1 k2 : IdKind) (n1 n2 : Nat),
    mkId k1 n1 = mkId k2 n2 → k1 = k2 ∧ n1 = n2 := by
  intro k1 k2 n1 n2 h
  have hd : (kindTag k1).data ++ (Nat.repr n1).data =
      (kindTag k2).data ++ (Nat.repr n2).data := by
    have := congrArg String.data h
    simpa [mkId, String.data_append] using this
  cases k1 <;> cases k2 <;>
    simp only [kindTag] at hd <;>
    first
      | (refine ⟨rfl, natRepr_injective ?_⟩
         apply String.ext
         exact List.append_cancel_left hd)
      | (exfalso
         have h5 := congrArg (fun l => List.head? l) hd
         simp at h5)



/-- Claim C10: a cost system frame changes only the streaming flag (and
its ref mirror, both set to false) and the pending route-model value
(cleared to null), emits exactly the profile-refresh call, and leaves
the thinking flag and the Message Store untouched (so a session that
was Thinking stays Thinking). -/
theorem claim_C10_cost_frame (s : ChatState) (p : String) (now : Nat) :
    handleFrame s (.system .cost p) now =
      ({ s with
          isStreaming := false,
          isStreamingRef := false,
          currentStreamModel := none },
       [Effect.refreshProfile]) := rfl

/-- Start state of Scenario A: freshly mounted session without a
conversation id, socket open, empty Message Store. -/
def scenarioAStart : LoopState :=
  let base := initLoop "ws" "localhost:8000" "tok" "auto" none
  { base with comp := { base.comp with ws := some wsOPEN } }

/-- Scenario A event order: the send, the route frame, three content
deltas, the cost frame. -/
def scenarioATrace : List Ev :=
  [ .send "hello" [] (.ok []) 1,
    .msg (.system .route "gpt-5.2") 2,
    .msg (.content "Hi") 3,
    .msg (.content " there") 4,
    .msg (.content "!") 5,
    .msg (.system .cost "0.01") 6 ]

/-- Claim C5: after send("hello") and the frames route "gpt-5.2",
deltas "Hi", " there", "!", and cost, the final store holds exactly the
user message and one assistant message "Hi there!" attributed to
"gpt-5.2", with streaming and thinking both false. -/
theorem claim_C5_scenarioA :
    (run scenarioAStart scenarioATrace).comp.messages =
      [ { role := .user, content := "hello", id := "user-1",
          attachments := [] },
        { role := .ai, content := "Hi there!", model := some "gpt-5.2",
          id := "ai-3" } ] ∧
    (run scenarioAStart scenarioATrace).comp.messages.length = 2 ∧
    (run scenarioAStart scenarioATrace).comp.isStreaming = false ∧
    (run scenarioAStart scenarioATrace).comp.isThinking = false := by
  decide

/-- A reachable state refuting claim C3: the referenced socket is in
the CLOSED ready state (the connection is not Open), the input is
non-empty, and the session is neither streaming nor thinking. -/
def c3State : ChatState :=
  { initComp none with input := "hi", ws := some wsCLOSED }

/-- Claim C3 counterexample: with a non-null but closed socket
reference, send() is not a no-op — the optimistic user message is still
appended (and thinking is set), because the guard only checks that
`ws.current` is non-null, not that the connection is Open. -/
theorem claim_C3_counterexample :
    c3State.ws ≠ none ∧
    c3State.ws ≠ some wsOPEN ∧
    c3State.isStreaming = false ∧
    c3State.isThinking = false ∧
    (sendMessage c3State (.ok []) 7).1.messages.length =
      c3State.messages.length + 1 ∧
    (sendMessage c3State (.ok []) 7).1.isThinking = true := by
  decide

/-- Claim C3 as amended: send() is a no-op — state untouched, no effect
performed, hence no frame transmitted — exactly when the trimmed input
is empty with no staged attachments, or the socket reference is null,
or the session is streaming or thinking; when the guard passes, the
Message Store strictly grows (so the call is not a no-op), regardless
of the socket's ready state. -/
theorem claim_C3_amended (s : ChatState)
    (u : Except Unit (List UploadedFileMeta)) (now : Nat) :
    (((jsTrim s.input = "" ∧ s.selectedFiles = []) ∨ s.ws = none ∨
        s.isStreaming = true ∨ s.isThinking = true) →
      sendMessage s u now = (s, [])) ∧
    (¬((jsTrim s.input = "" ∧ s.selectedFiles = []) ∨ s.ws = none ∨
        s.isStreaming = true ∨ s.isThinking = true) →
      s.messages.length < (sendMessage s u now).1.messages.length) := by
  constructor
  · intro h
    simp only [sendMessage]
    rw [if_pos]
    simpa using h
  · intro h
    simp only [sendMessage]
    rw [if_neg (by simpa using h)]
    by_cases hf : s.selectedFiles = []
    · simp [hf]
    · cases u <;> simp [hf]

/-- Claim C3 amended, at a concrete input: with a non-null closed
socket and non-empty input the guard passes and the store grows. -/
theorem claim_C3_amended_witness :
    (¬((jsTrim c3State.input = "" ∧ c3State.selectedFiles = []) ∨
        c3State.ws = none ∨ c3State.isStreaming = true ∨
        c3State.isThinking = true)) ∧
    c3State.messages.length <
      (sendMessage c3State (.ok []) 7).1.messages.length :=
  ⟨by decide, (claim_C3_amended c3State (.ok []) 7).2 (by decide)⟩


/-- Fresh no-route-id session used for the chat_id counterexample. -/
def c6State : ChatState := { initComp none with ws := some wsOPEN }

/-- The session after the backend first assigns conversation id "abc". -/
def c6State1 : ChatState :=
  (handleFrame c6State (.system .chat_id "abc") 1).1

/-- Claim C6 counterexample: re-delivering chat_id "abc" leaves the
state unchanged but re-issues the navigation update (a duplicate
`history.replaceState`), and a later chat_id "xyz" silently overwrites
the already-resolved id — no violation is flagged (the handler emits no
effect at all for it beyond the navigation update). -/
theorem claim_C6_counterexample :
    c6State1.internalChatId = some "abc" ∧
    (handleFrame c6State1 (.system .chat_id "abc") 2).2 =
      [Effect.replaceUrl "/dashboard/chat/abc"] ∧
    (handleFrame c6State1 (.system .chat_id "xyz") 3).1.internalChatId =
      some "xyz" ∧
    (handleFrame c6State1 (.system .chat_id "xyz") 3).2 =
      [Effect.replaceUrl "/dashboard/chat/xyz"] := by
  decide

/-- Claim C6 as amended: every chat_id frame unconditionally stores the
carried value as the resolved id (so re-processing an equal value is
idempotent on state, while a different value silently replaces the id
with no flagging), and the navigation update is issued on every chat_id
frame whenever the session has no route-supplied id — including
duplicates. -/
theorem claim_C6_amended (s : ChatState) (v : String) (now : Nat) :
    (handleFrame s (.system .chat_id v) now).1 =
      { s with internalChatId := some v } ∧
    (s.internalChatId = some v →
      (handleFrame s (.system .chat_id v) now).1 = s) ∧
    (handleFrame s (.system .chat_id v) now).2 =
      (if s.activeChatId = none then
        [Effect.replaceUrl ("/dashboard/chat/" ++ v)]
       else []) := by
  refine ⟨rfl, ?_, rfl⟩
  intro h
  cases s
  simp_all [handleFrame]

/-- Claim C6 amended, at a concrete input: re-delivery of the resolved
id "abc" leaves the state unchanged. -/
theorem claim_C6_amended_witness :
    c6State1.internalChatId = some "abc" ∧
    (handleFrame c6State1 (.system .chat_id "abc") 2).1 = c6State1 :=
  ⟨by decide, (claim_C6_amended c6State1 "abc" 2).2.1 (by decide)⟩

/-- Claim C9 counterexample: two warning frames processed in the same
millisecond produce two distinct messages carrying the same id
"warn-5" — ids are not unique within the session. -/
def c9State2 : ChatState :=
  (handleFrame
    (handleFrame (initComp none) (.system .warning "a") 5).1
    (.system .warning "b") 5).1

theorem claim_C9_counterexample :
    c9State2.messages.map Message.id = ["warn-5", "warn-5"] ∧
    c9State2.messages[0]? ≠ c9State2.messages[1]? := by
  decide

/-- Claim C9 as amended: a freshly created message id is the creation
site's tag followed by the decimal `Date.now()` value, so any two
messages created at distinct timestamps, or by distinct creation sites,
have distinct ids; a collision requires the same site tag in the same
millisecond (as the counterexample exhibits). -/
theorem claim_C9_amended (k1 k2 : IdKind) (n1 n2 : Nat)
    (h : k1 ≠ k2 ∨ n1 ≠ n2) :
    mkId k1 n1 ≠ mkId k2 n2 ∧
    (∀ (s : ChatState) (p : String),
      ((handleFrame s (.system .warning p) n1).1.messages.map Message.id) =
        s.messages.map Message.id ++ [mkId .warn n1]) ∧
    (∀ (s : ChatState) (m : String),
      ((handleFrame s (.error m) n1).1.messages.map Message.id) =
        s.messages.map Message.id ++ [mkId .err n1]) := by
  refine ⟨?_, ?_, ?_⟩
  · intro he
    rcases mkId_inj _ _ _ _ he with ⟨hk, hn⟩
    rcases h with h | h <;> exact h (by assumption)
  · intro s p; simp [handleFrame]
  · intro s m; simp [handleFrame]

/-- Claim C9 amended, at concrete inputs: ids of the same site at
distinct times differ, and ids of distinct sites at the same time
differ. -/
theorem claim_C9_amended_witness :
    ((IdKind.warn ≠ IdKind.warn ∨ (5 : Nat) ≠ 6) ∧
      mkId .warn 5 ≠ mkId .warn 6) ∧
    ((IdKind.user ≠ IdKind.ai ∨ (5 : Nat) ≠ 5) ∧
      mkId .user 5 ≠ mkId .ai 5) :=
  ⟨⟨Or.inr (by decide), (claim_C9_amended .warn .warn 5 6 (Or.inr (by decide))).1⟩,
   ⟨Or.inl (by decide), (claim_C9_amended .user .ai 5 5 (Or.inl (by decide))).1⟩⟩


/-- Claim C7: when an accepted send has staged attachments and the
upload step fails, the store gains the optimistic user message and the
system-role failure notice, thinking is cleared, no effect is performed
(in particular the user-turn frame is never transmitted), and the
socket reference is untouched (the connection remains open). -/
theorem claim_C7_upload_failure (s : ChatState) (now : Nat)
    (hacc : ¬((jsTrim s.input = "" ∧ s.selectedFiles = []) ∨ s.ws = none ∨
        s.isStreaming = true ∨ s.isThinking = true))
    (hfiles : s.selectedFiles ≠ []) :
    (sendMessage s (.error ()) now).1.messages =
      s.messages ++
        [{ role := .user, content := s.input, id := mkId .user now,
           attachments :=
             s.selectedFiles.map (fun f => ⟨f.name, f.mimeKind, f.size⟩) },
         { role := .system,
           content := "⚠️ Failed to upload attachments. Please try again.",
           id := mkId .sys now }] ∧
    (sendMessage s (.error ()) now).1.isThinking = false ∧
    (sendMessage s (.error ()) now).2 = [] ∧
    (sendMessage s (.error ()) now).1.ws = s.ws := by
  simp only [sendMessage]
  rw [if_neg (by simpa using hacc)]
  simp [hfiles]

/-- An accepted send with one staged attachment. -/
def c7State : ChatState :=
  { initComp none with
      input := "look",
      selectedFiles := [⟨"a.png", "image/png", 10⟩],
      ws := some wsOPEN }

/-- Claim C7 at a concrete input. -/
theorem claim_C7_witness :
    (¬((jsTrim c7State.input = "" ∧ c7State.selectedFiles = []) ∨
        c7State.ws = none ∨ c7State.isStreaming = true ∨
        c7State.isThinking = true) ∧
      c7State.selectedFiles ≠ []) ∧
    ((sendMessage c7State (.error ()) 9).1.messages =
      c7State.messages ++
        [{ role := .user, content := c7State.input, id := mkId .user 9,
           attachments :=
             c7State.selectedFiles.map (fun f => ⟨f.name, f.mimeKind, f.size⟩) },
         { role := .system,
           content := "⚠️ Failed to upload attachments. Please try again.",
           id := mkId .sys 9 }] ∧
     (sendMessage c7State (.error ()) 9).1.isThinking = false ∧
     (sendMessage c7State (.error ()) 9).2 = [] ∧
     (sendMessage c7State (.error ()) 9).1.ws = c7State.ws) :=
  ⟨⟨by decide, by decide⟩,
   claim_C7_upload_failure c7State 9 (by decide) (by decide)⟩

/-- The spec-side merge condition for a content delta: non-empty store,
last message has the assistant role, and the streaming flag was already
true before the delta arrived. -/
def mergeCond (s : ChatState) : Bool :=
  !s.messages.isEmpty &&
    (s.messages.getLast?.map Message.role == some Role.ai) &&
    s.isStreamingRef

/-- Observation "the delta was appended to the existing last message":
all earlier messages are untouched and the last message is the old last
message with the delta appended to its content. -/
def AppendedToLast (old new : List Message) (delta : String) : Prop :=
  new.dropLast = old.dropLast ∧
  match old.getLast?, new.getLast? with
  | some o, some n => n = { o with content := o.content ++ delta }
  | _, _ => False

/-- Claim C1: a content delta is appended to the existing last message
exactly when the store is non-empty, its last message is an assistant
message, and the streaming flag was already true before the delta;
otherwise a fresh assistant message seeded with the delta (and the
pending route model) is created.  After a session reset, the first
late-arriving delta finds an empty store with the streaming flag
cleared, so it is appended to no message: the resulting store is
exactly one fresh seeded message. -/
theorem claim_C1_merge_rule (s : ChatState) (delta : String) (now : Nat) :
    (if mergeCond s then
        AppendedToLast s.messages
          (handleFrame s (.content delta) now).1.messages delta
      else
        (handleFrame s (.content delta) now).1.messages =
          s.messages ++
            [{ role := .ai, content := delta,
               model := s.currentStreamModel, id := mkId .ai now }]) ∧
    (∀ (d : String) (n : Nat),
      mergeCond (resetEffect s).1 = false ∧
      (handleFrame (resetEffect s).1 (.content d) n).1.messages =
        [{ role := .ai, content := d, model := none, id := mkId .ai n }]) := by
  constructor
  · rcases hl : s.messages.getLast? with _ | lastMsg
    · have hm : mergeCond s = false := by
        simp [mergeCond, hl]
      rw [if_neg (by simp [hm])]
      simp [handleFrame, hl]
    · have hne : s.messages ≠ [] := by
        intro hnil
        rw [hnil] at hl
        simp at hl
      by_cases hb : (lastMsg.role == Role.ai && s.isStreamingRef) = true
      · have hm : mergeCond s = true := by
          simp only [mergeCond, hl]
          rcases Bool.and_eq_true_iff.mp hb with ⟨h1, h2⟩
          simp [List.isEmpty_iff, hne, Option.map, h2, beq_iff_eq.mp h1]
        rw [if_pos (by simp [hm])]
        refine ⟨?_, ?_⟩
        · simp [handleFrame, hl, hb, List.dropLast_concat]
        · simp [handleFrame, hl, hb, List.getLast?_concat]
      · have hm : mergeCond s = false := by
          simp only [mergeCond, hl]
          rcases Bool.and_eq_false_iff.mp (Bool.eq_false_iff.mpr hb) with h1 | h1
          · simp [Option.map, h1]
          · simp [h1]
        rw [if_neg (by simp [hm])]
        simp [handleFrame, hl, hb]
  · exact fun d n => ⟨rfl, rfl⟩


/-- Claim C2: a close event on a live, not-intentionally-torn-down
connection with code 1008 appends the system disconnect notice and
schedules nothing; any other code appends nothing and schedules exactly
one reconnection with the fixed 3000 ms delay; and a firing reconnect
timer opens its connection from the state at fire time, so the carried
chat_id parameter is the conversation id resolved at reconnect time
(whenever a non-empty id has been resolved, that id is the one sent). -/
theorem claim_C2_close_handling (ls : LoopState) (code now : Nat)
    (hlive : ls.live = true) (hcl : ls.isCleanup = false) :
    (code = 1008 →
      (step ls (.close code now)).1.comp.messages =
        ls.comp.messages ++
          [{ role := .system,
             content :=
               "⚠️ Disconnected: Insufficient credits or authentication issue.",
             id := mkId .sys now }] ∧
      (step ls (.close code now)).1.timer = ls.timer) ∧
    (code ≠ 1008 →
      (step ls (.close code now)).1.timer = some 3000 ∧
      (step ls (.close code now)).1.comp.messages = ls.comp.messages) ∧
    (∀ ls' : LoopState, ls'.timer = some 3000 → ls'.isCleanup = false →
      (step ls' .timerFire).2 =
        [Effect.openSocket
          (wsUrl ls'.proto ls'.host ls'.token ls'.model ls'.comp)] ∧
      (∀ c : String, ls'.comp.internalChatId = some c → c ≠ "" →
        targetChatId ls'.comp = c)) := by
  refine ⟨?_, ?_, ?_⟩
  · intro h1008
    subst h1008
    simp [step, hlive, hcl, handleClose]
  · intro hother
    simp [step, hlive, hcl, handleClose, hother]
  · intro ls' htimer hcl'
    constructor
    · simp [step, htimer, hcl', connectStep]
    · intro c hc hne
      simp [targetChatId, jsOrStr, hc, hne]

/-- Witness loop state for the close-handling claim. -/
def c2Loop : LoopState :=
  let base := initLoop "ws" "localhost:8000" "tok" "auto" none
  { base with
      comp := { base.comp with
        ws := some wsOPEN
        internalChatId := some "conv77" } }

/-- Claim C2 at a concrete input: a 1006 close schedules the 3000 ms
reconnect and the timer fire reconnects with chat_id "conv77". -/
theorem claim_C2_witness :
    (c2Loop.live = true ∧ c2Loop.isCleanup = false) ∧
    ((1006 : Nat) ≠ 1008 →
      (step c2Loop (.close 1006 4)).1.timer = some 3000 ∧
      (step c2Loop (.close 1006 4)).1.comp.messages =
        c2Loop.comp.messages) :=
  ⟨⟨by decide, by decide⟩,
   (claim_C2_close_handling c2Loop 1006 4 (by decide) (by decide)).2.1⟩

/-- Claim C4 counterexample: cancelling while streaming closes the
socket without marking the close intentional, so the resulting close
event schedules a reconnection — contradicting "no reconnection is
ever scheduled as a result of this closure". -/
def c4Start : LoopState :=
  let base := initLoop "ws" "localhost:8000" "tok" "auto" none
  { base with
      comp := { base.comp with
        ws := some wsOPEN
        isStreaming := true
        isStreamingRef := true } }

theorem claim_C4_counterexample :
    c4Start.comp.isStreaming = true ∧
    (step c4Start .stop).2 = [Effect.closeSocket] ∧
    (run c4Start [.stop, .close 1005 9]).timer = some 3000 := by
  decide

/-- Claim C4 as amended: cancel() while streaming or thinking clears
streaming/thinking (and the ref), closes the referenced socket, and
leaves the Message Store unchanged (the partial assistant message is
retained); but the close is not flagged intentional, so the socket's
subsequent close event (any non-1008 code) still finds the store
unchanged and schedules a reconnection after 3000 ms. -/
theorem claim_C4_amended (ls : LoopState) (code now : Nat)
    (hws : ls.comp.ws ≠ none)
    (hact : ls.comp.isStreaming = true ∨ ls.comp.isThinking = true)
    (hlive : ls.live = true) (hcl : ls.isCleanup = false)
    (hcode : code ≠ 1008) :
    (step ls .stop).2 = [Effect.closeSocket] ∧
    (step ls .stop).1.comp.messages = ls.comp.messages ∧
    (step ls .stop).1.comp.isStreaming = false ∧
    (step ls .stop).1.comp.isThinking = false ∧
    (step ls .stop).1.comp.isStreamingRef = false ∧
    (step (step ls .stop).1 (.close code now)).1.comp.messages =
      ls.comp.messages ∧
    (step (step ls .stop).1 (.close code now)).1.timer = some 3000 := by
  have hg : ls.comp.ws ≠ none ∧
      (ls.comp.isStreaming = true ∨ ls.comp.isThinking = true) := ⟨hws, hact⟩
  refine ⟨?_, ?_, ?_, ?_, ?_, ?_, ?_⟩ <;>
    simp [step, handleStop, hg, hws, hact, hlive, hcl, handleClose, hcode]

/-- Witness loop state for the amended cancel claim: thinking, socket
open. -/
def c4Loop : LoopState :=
  let base := initLoop "ws" "localhost:8000" "tok" "auto" none
  { base with
      comp := { base.comp with
        ws := some wsOPEN
        isThinking := true } }

/-- Claim C4 amended, at a concrete input. -/
theorem claim_C4_amended_witness :
    (c4Loop.comp.ws ≠ none ∧
      (c4Loop.comp.isStreaming = true ∨ c4Loop.comp.isThinking = true) ∧
      c4Loop.live = true ∧ c4Loop.isCleanup = false ∧ (1005 : Nat) ≠ 1008) ∧
    ((step c4Loop .stop).2 = [Effect.closeSocket] ∧
     (step c4Loop .stop).1.comp.messages = c4Loop.comp.messages ∧
     (step c4Loop .stop).1.comp.isStreaming = false ∧
     (step c4Loop .stop).1.comp.isThinking = false ∧
     (step c4Loop .stop).1.comp.isStreamingRef = false ∧
     (step (step c4Loop .stop).1 (.close 1005 9)).1.comp.messages =
       c4Loop.comp.messages ∧
     (step (step c4Loop .stop).1 (.close 1005 9)).1.timer = some 3000) :=
  ⟨⟨by decide, Or.inr (by decide), by decide, by decide, by decide⟩,
   claim_C4_amended c4Loop 1005 9 (by decide) (Or.inr (by decide))
     (by decide) (by decide) (by decide)⟩


/-- Claim C8 counterexample: a retryable close schedules the 3000 ms
timer; a session reset (an explicit teardown per the spec) follows
within the window, yet the timer survives the reset, fires, and opens a
new connection — a connection attempt after the teardown. -/
def c8AfterReset : LoopState :=
  run (initLoop "ws" "localhost:8000" "tok" "auto" none)
    [.close 1006 4, .reset]

theorem claim_C8_counterexample :
    c8AfterReset.timer = some 3000 ∧
    (step c8AfterReset .timerFire).2 =
      [Effect.openSocket
        "ws://localhost:8000/api/v1/chat/ws?token=tok&model=auto"] ∧
    (step c8AfterReset .timerFire).1.live = true := by
  decide

/-- Claim C8 as amended: the WebSocket effect's cleanup (unmount or
token/model/conversation change) cancels the tracked reconnection
timer and sets the intentional-close flag, after which a firing timer
callback performs no connect; the timer bookkeeping invariant — no
outstanding callback escapes the `reconnectTimer` variable, and a
pending timer implies the closing socket is gone — is preserved by
every event and holds on a fresh effect run, so at most one
reconnection timer is outstanding at any time.  A session reset,
however, does not cancel a pending reconnection timer. -/
theorem claim_C8_amended (ls : LoopState) (e : Ev) (h : TimerInv ls) :
    TimerInv (step ls e).1 ∧
    outstandingTimers ls ≤ 1 ∧
    (step ls .cleanup).1.timer = none ∧
    (step ls .cleanup).1.isCleanup = true ∧
    (ls.isCleanup = true →
      (step ls .timerFire).2 = [] ∧
      (step ls .timerFire).1.comp = ls.comp ∧
      (step ls .timerFire).1.live = ls.live) ∧
    (step ls .reset).1.timer = ls.timer ∧
    (∀ (pr hs tk md : String) (rc : Option String),
      TimerInv (initLoop pr hs tk md rc)) := by
  obtain ⟨hu, ht⟩ := h
  refine ⟨?_, ?_, ?_, ?_, ?_, ?_, ?_⟩
  · cases e with
    | msg f now =>
        simp only [step]
        split
        · split <;> exact ⟨hu, ht⟩
        · exact ⟨hu, ht⟩
    | close code now =>
        simp only [step]
        split
        · next hlive =>
            have htnone : ls.timer = none := by
              cases hts : ls.timer with
              | none => rfl
              | some d =>
                  have := ht (by simp [hts])
                  rw [this] at hlive
                  cases hlive
            split
            · exact ⟨hu, by intro _; rfl⟩
            · split
              · exact ⟨by simp [htnone, hu], by intro _; rfl⟩
              · exact ⟨hu, by intro _; rfl⟩
        · exact ⟨hu, ht⟩
    | timerFire =>
        cases hts : ls.timer with
        | none => simpa only [step, hts] using ⟨hu, ht⟩
        | some d =>
            simp only [step, hts]
            split
            · exact ⟨hu, by simp⟩
            · exact ⟨by simpa [connectStep] using hu, by simp [connectStep]⟩
    | untrackedFire =>
        simp only [step, hu]
        rw [if_neg (by omega)]
        exact ⟨hu, ht⟩
    | reset => exact ⟨hu, ht⟩
    | stop =>
        simp only [step, handleStop]
        split <;> exact ⟨hu, ht⟩
    | cleanup => exact ⟨hu, by simp [step]⟩
    | send text files upload now => exact ⟨hu, ht⟩
  · simp only [outstandingTimers, hu]
    split <;> omega
  · simp [step]
  · simp [step]
  · intro hcl
    cases hts : ls.timer with
    | none => simp [step, hts]
    | some d => simp [step, hts, hcl]
  · simp [step, resetEffect]
  · intro pr hs tk md rc
    exact ⟨rfl, by intro hx; simp [initLoop, connectStep] at hx⟩

/-- Claim C8 amended, at a concrete input: the invariant is preserved
across a retryable close on a fresh effect run. -/
theorem claim_C8_amended_witness :
    TimerInv (initLoop "ws" "h" "t" "auto" none) ∧
    TimerInv (step (initLoop "ws" "h" "t" "auto" none) (.close 1006 4)).1 :=
  ⟨⟨rfl, fun hx => absurd hx (by decide)⟩,
   (claim_C8_amended (initLoop "ws" "h" "t" "auto" none) (.close 1006 4)
     ⟨rfl, fun hx => absurd hx (by decide)⟩).1⟩


end ChatCore
